import Mathlib

/-!
Shallow embedding of the portfolio service worker (`sw.js`): the cache
router and lifecycle controller.  Cache partitions are modelled as
association lists from request URL (the request identity; the method is
always GET) to stored responses, kept in insertion order, which is the
enumeration order of `cache.keys()`.  Network outcomes and cache-open
outcomes are supplied as explicit parameters, since the worker treats a
fetch rejection and the 3000 ms timeout rejection identically (both land
in the same `catch`).
-/

/-- A stored or synthesized HTTP response: the fields the worker reads or
sets.  `Response.ok` follows the fetch specification: status in the
inclusive range 200–299. -/
structure Response where
  status : Nat
  statusText : String
  contentType : String
  cacheControl : String
  body : String
deriving DecidableEq, Repr

def Response.ok (r : Response) : Bool :=
  decide (200 ≤ r.status) && decide (r.status ≤ 299)

/-- Outcome of one network attempt.  `failure` covers both a rejected
`fetch` and the `fetchWithTimeout` timeout rejection: the worker's catch
blocks do not distinguish them. -/
inductive NetResult where
  | success (r : Response)
  | failure
deriving DecidableEq, Repr

/-- A cache partition: entries in insertion order, keyed by request URL. -/
abbrev Cache := List (String × Response)

def cacheKeys (c : Cache) : List String := c.map Prod.fst

/-- `cache.match(request)`: the entry stored under the request identity. -/
def cacheMatch (c : Cache) (k : String) : Option Response :=
  (c.find? (fun e => e.1 == k)).map Prod.snd

/-- `cache.delete(key)`: remove the entry (entries) stored under `key`. -/
def cacheDelete (c : Cache) (k : String) : Cache :=
  c.filter (fun e => e.1 != k)

/-- `cache.put(request, response)`: the Cache API batch operation deletes
any entry with the same identity, then appends the new entry. -/
def cachePut (c : Cache) (k : String) (r : Response) : Cache :=
  cacheDelete c k ++ [(k, r)]

-- Versioned partition names (sw.js lines 11–14).
def CACHE_NAME : String := "portfolio-v1.1.0"
def STATIC_CACHE : String := "portfolio-static-v1.1.0"
def DYNAMIC_CACHE : String := "portfolio-dynamic-v1.1.0"
def IMAGE_CACHE : String := "portfolio-images-v1.1.0"

-- Cache size limits (sw.js lines 17–18).
def MAX_IMAGE_CACHE_SIZE : Nat := 50
def MAX_DYNAMIC_CACHE_SIZE : Nat := 30

-- Resources to cache immediately on install (sw.js lines 21–32).
def STATIC_ASSETS : List String :=
  [ "/",
    "/index.html",
    "/project-detail.html",
    "/styles/main.css",
    "/scripts/main.js",
    "/scripts/utils/imageOptimization.js",
    "/scripts/utils/imageManifest.js",
    "/scripts/components/lightbox.js",
    "/scripts/components/pageTransitions.js",
    "/manifest.json" ]

-- Critical images to cache (sw.js lines 35–42).
def CRITICAL_IMAGES : List String :=
  [ "/assets/images/project-1-medium.webp",
    "/assets/images/project-1-medium.jpg",
    "/assets/images/project-2-medium.webp",
    "/assets/images/project-2-medium.jpg",
    "/assets/images/project-3-medium.webp",
    "/assets/images/project-3-medium.jpg" ]

-- Network timeout for cache fallback (sw.js line 45); the timeout itself
-- is folded into `NetResult.failure`.
def NETWORK_TIMEOUT : Nat := 3000

/-- `limitCacheSize(cacheName, maxSize)`: list the keys in enumeration
order; if the count exceeds the bound, delete the first
`count - maxSize` keys (`keys.slice(0, keys.length - maxSize)`). -/
def limitCacheSize (maxSize : Nat) (c : Cache) : Cache :=
  let keys := cacheKeys c
  if keys.length > maxSize then
    (keys.take (keys.length - maxSize)).foldl cacheDelete c
  else c

/-- Anchored suffix match: how a `$`-terminated extension regex tests a
pathname.  Implemented structurally over the character data so that it
evaluates on concrete paths. -/
def strEndsWith (s pat : String) : Bool :=
  List.isPrefixOf pat.data.reverse s.data.reverse

/-- `isStaticAsset(pathname)`: the regex `\.(css|js|woff2?|ttf|eot)$`. -/
def isStaticAsset (pathname : String) : Bool :=
  strEndsWith pathname ".css" || strEndsWith pathname ".js" ||
  strEndsWith pathname ".woff" || strEndsWith pathname ".woff2" ||
  strEndsWith pathname ".ttf" || strEndsWith pathname ".eot"

/-- `isImage(pathname)`: the regex `\.(jpg|jpeg|png|webp|svg|gif)$`. -/
def isImage (pathname : String) : Bool :=
  strEndsWith pathname ".jpg" || strEndsWith pathname ".jpeg" ||
  strEndsWith pathname ".png" || strEndsWith pathname ".webp" ||
  strEndsWith pathname ".svg" || strEndsWith pathname ".gif"

/-- `isHTMLPage(pathname)`: the path is exactly the root, ends in
`.html`, or contains no dot at all (`!pathname.includes(".")`). -/
def isHTMLPage (pathname : String) : Bool :=
  pathname == "/" || strEndsWith pathname ".html" || !(pathname.data.contains '.')

/-- The inline SVG placeholder returned by `getPlaceholderImage` when the
well-known placeholder key also misses (sw.js lines 273–281).  A string
body gives the fetch default status 200 and empty status text; the
headers are set explicitly in the source. -/
def placeholderSVGResponse : Response :=
  { status := 200,
    statusText := "",
    contentType := "image/svg+xml",
    cacheControl := "max-age=86400",
    body := "<svg width=\"400\" height=\"300\" xmlns=\"http://www.w3.org/2000/svg\"><rect width=\"100%\" height=\"100%\" fill=\"#f3f4f6\"/><text x=\"50%\" y=\"50%\" text-anchor=\"middle\" dy=\".3em\" fill=\"#6b7280\">Image unavailable</text></svg>" }

/-- The synthesized offline HTML document (sw.js lines 295–315), with the
braces of the inline CSS and the apostrophes written escaped. -/
def offlinePageHTML : String :=
  "<!DOCTYPE html>\n" ++
  "    <html lang=\"en\">\n" ++
  "    <head>\n" ++
  "      <meta charset=\"UTF-8\">\n" ++
  "      <meta name=\"viewport\" content=\"width=device-width, initial-scale=1.0\">\n" ++
  "      <title>Offline - Rebecca Lee Jin Portfolio</title>\n" ++
  "      <style>\n" ++
  "        body \x7b font-family: system-ui, sans-serif; text-align: center; padding: 2rem; \x7d\n" ++
  "        .offline-message \x7b max-width: 400px; margin: 0 auto; \x7d\n" ++
  "        .offline-icon \x7b font-size: 4rem; margin-bottom: 1rem; \x7d\n" ++
  "      </style>\n" ++
  "    </head>\n" ++
  "    <body>\n" ++
  "      <div class=\"offline-message\">\n" ++
  "        <div class=\"offline-icon\">📱</div>\n" ++
  "        <h1>You\x27re Offline</h1>\n" ++
  "        <p>This page isn\x27t available offline. Please check your internet connection and try again.</p>\n" ++
  "        <button onclick=\"window.location.reload()\">Try Again</button>\n" ++
  "      </div>\n" ++
  "    </body>\n" ++
  "    </html>"

/-- The synthesized offline page response (sw.js lines 294–322): default
status 200, explicit `text/html` and `no-cache` headers. -/
def offlinePageResponse : Response :=
  { status := 200,
    statusText := "",
    contentType := "text/html",
    cacheControl := "no-cache",
    body := offlinePageHTML }

/-- `new Response("Offline", { status: 503 })` from `handleDynamic`
(sw.js line 233): no status text is supplied there; a string body gets
the fetch default `text/plain;charset=UTF-8` content type. -/
def dynamic503Response : Response :=
  { status := 503,
    statusText := "",
    contentType := "text/plain;charset=UTF-8",
    cacheControl := "",
    body := "Offline" }

/-- `new Response("Offline", { status: 503, statusText: "Service
Unavailable" })` from `handleOfflineFallback` (sw.js lines 334–338). -/
def fallback503Response : Response :=
  { status := 503,
    statusText := "Service Unavailable",
    contentType := "text/plain;charset=UTF-8",
    cacheControl := "",
    body := "Offline" }

/-- `getPlaceholderImage()` given the contents of the images partition:
the cached well-known placeholder if present, else the inline SVG. -/
def getPlaceholderImage (imageCache : Cache) : Response :=
  match cacheMatch imageCache "/assets/images/placeholder.jpg" with
  | some r => r
  | none => placeholderSVGResponse

/-- `getOfflinePage()` given the contents of the static partition: the
cached root page if present, else the synthesized offline document. -/
def getOfflinePage (staticCache : Cache) : Response :=
  match cacheMatch staticCache "/" with
  | some r => r
  | none => offlinePageResponse

/-- `updateCacheInBackground(request, cache)`: refresh the entry on a
successful ok response; failures are silently discarded. -/
def updateCacheInBackground (cache : Cache) (key : String) (net : NetResult) : Cache :=
  match net with
  | .success r => if r.ok then cachePut cache key r else cache
  | .failure => cache

/-- `handleStaticAsset(request)` on the static partition.  On a hit the
cached response is returned and the background revalidation (whose
network outcome is the same `net` parameter — at most one fetch happens
per call) may refresh the entry.  On a miss, a network failure is an
uncaught throw that propagates to the caller, modelled as `.error ()`. -/
def handleStaticAsset (cache : Cache) (key : String) (net : NetResult) :
    Except Unit (Response × Cache) :=
  match cacheMatch cache key with
  | some r => .ok (r, updateCacheInBackground cache key net)
  | none =>
    match net with
    | .success r => .ok (r, if r.ok then cachePut cache key r else cache)
    | .failure => .error ()

/-- `handleImage(request)` on the images partition: cache-first; on a
miss, a timed network attempt; ok responses are stored and the size bound
enforced; failures fall back to the placeholder. -/
def handleImage (imageCache : Cache) (key : String) (net : NetResult) :
    Response × Cache :=
  match cacheMatch imageCache key with
  | some r => (r, imageCache)
  | none =>
    match net with
    | .success r =>
        if r.ok then (r, limitCacheSize MAX_IMAGE_CACHE_SIZE (cachePut imageCache key r))
        else (r, imageCache)
    | .failure => (getPlaceholderImage imageCache, imageCache)

/-- `handleHTMLPage(request)` on the dynamic partition (with the static
partition visible to the `getOfflinePage` fallback): network-first; ok
responses are stored (with no size-bound enforcement in this handler);
on failure the dynamic partition is consulted, then `getOfflinePage`. -/
def handleHTMLPage (dynamicCache staticCache : Cache) (key : String) (net : NetResult) :
    Response × Cache :=
  match net with
  | .success r => (r, if r.ok then cachePut dynamicCache key r else dynamicCache)
  | .failure =>
    match cacheMatch dynamicCache key with
    | some r => (r, dynamicCache)
    | none => (getOfflinePage staticCache, dynamicCache)

/-- `handleDynamic(request)` on the dynamic partition: network-first; ok
responses are stored and the size bound enforced; on failure the cached
entry or a plain 503 "Offline" response. -/
def handleDynamic (dynamicCache : Cache) (key : String) (net : NetResult) :
    Response × Cache :=
  match net with
  | .success r =>
      if r.ok then (r, limitCacheSize MAX_DYNAMIC_CACHE_SIZE (cachePut dynamicCache key r))
      else (r, dynamicCache)
  | .failure =>
    match cacheMatch dynamicCache key with
    | some r => (r, dynamicCache)
    | none => (dynamic503Response, dynamicCache)

/-- `cache.addAll(urls)` with the page fetched for each url given by
`fetched`: writes every listed url.  The Cache API batch operation is
atomic: if any fetch fails, nothing is written (the install handler
models that by keeping the partition unchanged on failure). -/
def addAll (cache : Cache) (urls : List String) (fetched : String → Response) : Cache :=
  urls.foldl (fun c u => cachePut c u (fetched u)) cache

/-- Outcome of the install event: the partitions written, whether the
failure branch logged, and whether `self.skipWaiting()` ran. -/
structure InstallResult where
  staticCache : Cache
  imageCache : Cache
  loggedError : Bool
  skipWaitingCalled : Bool
deriving Repr

/-- The install listener (sw.js lines 48–74): `Promise.all` of the two
bulk writes, `.then` forcing activation via `skipWaiting`, `.catch`
logging the failure.  `staticAddOk` / `imagesAddOk` say whether each
`addAll` succeeded; `skipWaiting` runs only in the `.then` branch, i.e.
only when both succeeded, while the `.catch` branch only logs (so the
install promise handed to `waitUntil` still resolves). -/
def installEvent (staticAddOk imagesAddOk : Bool) (fetched : String → Response) :
    InstallResult :=
  { staticCache := if staticAddOk then addAll [] STATIC_ASSETS fetched else [],
    imageCache :=
      if imagesAddOk then addAll [] (CRITICAL_IMAGES.filter (fun u => u != "")) fetched
      else [],
    loggedError := !(staticAddOk && imagesAddOk),
    skipWaitingCalled := staticAddOk && imagesAddOk }

/-- The four routing classes of `handleFetch`. -/
inductive ReqClass where
  | staticAsset
  | image
  | htmlPage
  | dynamicContent
deriving DecidableEq, Repr

/-- The routing decision of `handleFetch` (sw.js lines 129–137):
first-match-wins over the three predicates, everything else dynamic. -/
def classify (pathname : String) : ReqClass :=
  if isStaticAsset pathname then .staticAsset
  else if isImage pathname then .image
  else if isHTMLPage pathname then .htmlPage
  else .dynamicContent

/-- The environment one fetch-event handling runs in: the contents of the
three partitions, which `caches.open` calls reject (a cache-open failure
is the representative cache-access failure of the routing path; a given
name rejects deterministically within one event), and the outcome of the
(single) network attempt the chosen strategy makes. -/
structure SWEnv where
  openFails : String → Bool
  staticCache : Cache
  imageCache : Cache
  dynamicCache : Cache
  netResult : NetResult

/-- The partition a cache name denotes. -/
def cacheContents (env : SWEnv) (name : String) : Cache :=
  if name == STATIC_CACHE then env.staticCache
  else if name == IMAGE_CACHE then env.imageCache
  else if name == DYNAMIC_CACHE then env.dynamicCache
  else []

/-- `caches.open(name)`: rejects or yields the partition contents. -/
def cachesOpen (env : SWEnv) (name : String) : Except String Cache :=
  if env.openFails name then .error "cache open rejected"
  else .ok (cacheContents env name)

/-- `getPlaceholderImage()` with its own fallible `caches.open`. -/
def getPlaceholderImageE (env : SWEnv) : Except String Response :=
  (cachesOpen env IMAGE_CACHE).map getPlaceholderImage

/-- `getOfflinePage()` with its own fallible `caches.open`. -/
def getOfflinePageE (env : SWEnv) : Except String Response :=
  (cachesOpen env STATIC_CACHE).map getOfflinePage

/-- `handleStaticAsset` with a fallible open of the static partition. -/
def handleStaticAssetE (env : SWEnv) (key : String) : Except String (Response × Cache) := do
  let c ← cachesOpen env STATIC_CACHE
  match handleStaticAsset c key env.netResult with
  | .ok x => .ok x
  | .error () => .error "fetch rejected"

/-- `handleImage` with a fallible open of the images partition.  The
placeholder path re-opens `IMAGE_CACHE` (sw.js line 261); a second open
of the same name has the same outcome in this model, and it succeeds
whenever this handler got past its own open, so the pure handler applies. -/
def handleImageE (env : SWEnv) (key : String) : Except String (Response × Cache) := do
  let c ← cachesOpen env IMAGE_CACHE
  .ok (handleImage c key env.netResult)

/-- `handleHTMLPage` with fallible opens: its own open of the dynamic
partition, and — only on the miss-after-failure path — the open of the
static partition performed inside `getOfflinePage`. -/
def handleHTMLPageE (env : SWEnv) (key : String) : Except String (Response × Cache) := do
  let dyn ← cachesOpen env DYNAMIC_CACHE
  match env.netResult with
  | .success r => .ok (r, if r.ok then cachePut dyn key r else dyn)
  | .failure =>
    match cacheMatch dyn key with
    | some r => .ok (r, dyn)
    | none => do
      let off ← getOfflinePageE env
      .ok (off, dyn)

/-- `handleDynamic` with a fallible open of the dynamic partition. -/
def handleDynamicE (env : SWEnv) (key : String) : Except String (Response × Cache) := do
  let dyn ← cachesOpen env DYNAMIC_CACHE
  .ok (handleDynamic dyn key env.netResult)

/-- `handleOfflineFallback(request)` (sw.js lines 326–339): re-classify
by path; images get the placeholder, HTML-like paths the offline page,
anything else the synthesized 503.  The two former paths perform their
own cache opens and can themselves reject. -/
def handleOfflineFallback (env : SWEnv) (pathname : String) : Except String Response :=
  if isImage pathname then getPlaceholderImageE env
  else if isHTMLPage pathname then getOfflinePageE env
  else .ok fallback503Response

/-- `handleFetch(request)` (sw.js lines 124–142): route by the three
predicates in order; any error thrown by the chosen handler is caught
and sent to `handleOfflineFallback`, whose own errors are uncaught. -/
def handleFetch (env : SWEnv) (pathname : String) : Except String Response :=
  match
    (if isStaticAsset pathname then handleStaticAssetE env pathname
     else if isImage pathname then handleImageE env pathname
     else if isHTMLPage pathname then handleHTMLPageE env pathname
     else handleDynamicE env pathname).map Prod.fst
  with
  | .ok r => .ok r
  | .error _ => handleOfflineFallback env pathname

/-- One operation against a bounded partition: a successful write (a
`cache.put` of an ok response followed by `limitCacheSize`) or a read
(`cache.match`, which never reorders or modifies entries). -/
inductive CacheOp where
  | write (key : String) (r : Response)
  | lookup (key : String)
deriving Repr

/-- Apply one operation at bound `L`. -/
def applyOp (L : Nat) (c : Cache) : CacheOp → Cache
  | .write k r => limitCacheSize L (cachePut c k r)
  | .lookup _ => c

/-- Run a sequence of operations against an initially empty partition. -/
def runOps (L : Nat) (ops : List CacheOp) : Cache :=
  ops.foldl (applyOp L) []

/-- The written (key, response) pairs of a sequence, in order. -/
def writePairs : List CacheOp → List (String × Response)
  | [] => []
  | .write k r :: rest => (k, r) :: writePairs rest
  | .lookup _ :: rest => writePairs rest

theorem cacheKeys_length (c : Cache) : (cacheKeys c).length = c.length := by
  simp [cacheKeys]

theorem cacheDelete_of_not_mem {c : Cache} {k : String} (h : k ∉ cacheKeys c) :
    cacheDelete c k = c := by
  apply List.filter_eq_self.mpr
  intro e he
  simp only [bne_iff_ne, ne_eq]
  intro hek
  exact h (hek ▸ List.mem_map_of_mem Prod.fst he)

theorem cachePut_of_not_mem {c : Cache} {k : String} (r : Response) (h : k ∉ cacheKeys c) :
    cachePut c k r = c ++ [(k, r)] := by
  rw [cachePut, cacheDelete_of_not_mem h]

theorem cacheKeys_cacheDelete_sublist (c : Cache) (k : String) :
    List.Sublist (cacheKeys (cacheDelete c k)) (cacheKeys c) :=
  List.Sublist.map Prod.fst (List.filter_sublist c)

theorem foldl_cacheDelete_take :
    ∀ (d : Nat) (c : Cache), (cacheKeys c).Nodup →
      ((cacheKeys c).take d).foldl cacheDelete c = c.drop d
  | 0, c, _ => by simp
  | _ + 1, [], _ => by simp [cacheKeys]
  | d + 1, e :: rest, h => by
    have hh : e.1 ∉ cacheKeys rest ∧ (cacheKeys rest).Nodup := by
      simpa [cacheKeys] using h
    have h1 : cacheDelete (e :: rest) e.1 = rest := by
      have h2 : cacheDelete (e :: rest) e.1 = cacheDelete rest e.1 := by
        simp [cacheDelete]
      rw [h2, cacheDelete_of_not_mem hh.1]
    have hstep : (cacheKeys (e :: rest)).take (d + 1) = e.1 :: (cacheKeys rest).take d := by
      simp [cacheKeys]
    rw [hstep, List.foldl_cons, h1, foldl_cacheDelete_take d rest hh.2, List.drop_succ_cons]

theorem limitCacheSize_eq_drop {c : Cache} (m : Nat) (h : (cacheKeys c).Nodup) :
    limitCacheSize m c = c.drop (c.length - m) := by
  show (if (cacheKeys c).length > m then
      ((cacheKeys c).take ((cacheKeys c).length - m)).foldl cacheDelete c
    else c) = c.drop (c.length - m)
  by_cases hgt : (cacheKeys c).length > m
  · rw [if_pos hgt, cacheKeys_length, foldl_cacheDelete_take _ c h]
  · rw [if_neg hgt]
    have hle : c.length ≤ m := by
      have := Nat.le_of_not_lt hgt
      rwa [cacheKeys_length] at this
    rw [Nat.sub_eq_zero_of_le hle, List.drop_zero]

theorem length_limitCacheSize {c : Cache} (m : Nat) (h : (cacheKeys c).Nodup) :
    (limitCacheSize m c).length = min c.length m := by
  rw [limitCacheSize_eq_drop m h, List.length_drop]
  omega

theorem cacheKeys_cachePut (c : Cache) (k : String) (r : Response) :
    cacheKeys (cachePut c k r) = cacheKeys (cacheDelete c k) ++ [k] := by
  simp [cachePut, cacheKeys]

theorem cacheKeys_cachePut_nodup {c : Cache} (k : String) (r : Response)
    (h : (cacheKeys c).Nodup) : (cacheKeys (cachePut c k r)).Nodup := by
  have h1 : (cacheKeys (cacheDelete c k)).Nodup :=
    List.Nodup.sublist (cacheKeys_cacheDelete_sublist c k) h
  have h2 : k ∉ cacheKeys (cacheDelete c k) := by
    intro hk
    obtain ⟨e, he, hek⟩ := List.mem_map.mp hk
    have hf := List.of_mem_filter he
    rw [hek] at hf
    simp at hf
  rw [cacheKeys_cachePut]
  refine List.Nodup.append h1 (List.nodup_singleton k) ?_
  intro a ha hb
  rw [List.mem_singleton.mp hb] at ha
  exact h2 ha

theorem length_cachePut_le (c : Cache) (k : String) (r : Response) :
    (cachePut c k r).length ≤ c.length + 1 := by
  have : (cacheDelete c k).length ≤ c.length := List.length_filter_le _ c
  simp only [cachePut, List.length_append, List.length_singleton]
  omega

theorem limit_cachePut_step (L : Nat) (done : List (String × Response)) (k : String)
    (r : Response) (h : ((done ++ [(k, r)]).map Prod.fst).Nodup) :
    limitCacheSize L (cachePut (done.drop (done.length - L)) k r) =
      (done ++ [(k, r)]).drop (done.length + 1 - L) := by
  have hmap : (done ++ [(k, r)]).map Prod.fst = done.map Prod.fst ++ [k] := by simp
  have h' : (done.map Prod.fst ++ [k]).Nodup := by rwa [hmap] at h
  have hkdone : k ∉ done.map Prod.fst := by
    intro hk
    exact (List.nodup_append.mp h').2.2 hk (List.mem_singleton_self k)
  have hkdrop : k ∉ cacheKeys (done.drop (done.length - L)) := by
    intro hk
    exact hkdone (List.Sublist.mem hk
      (List.Sublist.map Prod.fst (List.drop_sublist _ done)))
  rw [cachePut_of_not_mem r hkdrop]
  have hXnodup : (cacheKeys (done.drop (done.length - L) ++ [(k, r)])).Nodup := by
    have hsub : List.Sublist ((done.drop (done.length - L) ++ [(k, r)]).map Prod.fst)
        ((done ++ [(k, r)]).map Prod.fst) :=
      List.Sublist.map Prod.fst
        ((List.drop_sublist (done.length - L) done).append (List.Sublist.refl _))
    exact List.Nodup.sublist hsub h
  rw [limitCacheSize_eq_drop L hXnodup]
  have hlen : (done.drop (done.length - L) ++ [(k, r)]).length =
      done.length - (done.length - L) + 1 := by
    simp
  by_cases hL : L ≤ done.length
  · rcases Nat.eq_zero_or_pos L with hL0 | hLpos
    · subst hL0
      have h1 : done.drop (done.length - 0) = [] := List.drop_eq_nil_of_le (by omega)
      rw [h1, List.nil_append, List.drop_eq_nil_of_le (by simp), Eq.comm]
      exact List.drop_eq_nil_of_le (by simp)
    · have hidx : (done.drop (done.length - L) ++ [(k, r)]).length - L = 1 := by
        rw [hlen]; omega
      have hlendrop : 1 ≤ (done.drop (done.length - L)).length := by
        rw [List.length_drop]; omega
      rw [hidx, List.drop_append_of_le_length hlendrop, List.drop_drop,
        Eq.comm, List.drop_append_of_le_length (by omega)]
      have harith : done.length + 1 - L = done.length - L + 1 := by omega
      rw [harith]
  · have hd00 : done.length - L = 0 := by omega
    rw [hd00, List.drop_zero]
    have h0 : (done ++ [(k, r)]).length - L = 0 := by
      simp only [List.length_append, List.length_singleton]; omega
    have h1 : done.length + 1 - L = 0 := by omega
    rw [h0, h1, List.drop_zero]

theorem runOps_eq_drop_aux (L : Nat) :
    ∀ (ops : List CacheOp) (done : List (String × Response)),
      ((done ++ writePairs ops).map Prod.fst).Nodup →
      List.foldl (applyOp L) (done.drop (done.length - L)) ops =
        (done ++ writePairs ops).drop ((done ++ writePairs ops).length - L)
  | [], done, _ => by simp [writePairs]
  | .lookup k :: rest, done, h => by
    have h' : ((done ++ writePairs rest).map Prod.fst).Nodup := by
      simpa [writePairs] using h
    have hIH := runOps_eq_drop_aux L rest done h'
    simpa [writePairs, applyOp] using hIH
  | .write k r :: rest, done, h => by
    have hwp : writePairs (.write k r :: rest) = (k, r) :: writePairs rest := rfl
    have hassoc : done ++ (k, r) :: writePairs rest =
        (done ++ [(k, r)]) ++ writePairs rest := by simp
    rw [hwp] at h ⊢
    rw [hassoc] at h ⊢
    have h1 : ((done ++ [(k, r)]).map Prod.fst).Nodup :=
      List.Nodup.sublist
        (List.Sublist.map Prod.fst (List.sublist_append_left _ (writePairs rest))) h
    have hstep := limit_cachePut_step L done k r h1
    have hlen1 : (done ++ [(k, r)]).length = done.length + 1 := by simp
    rw [List.foldl_cons]
    have happ : applyOp L (done.drop (done.length - L)) (.write k r) =
        (done ++ [(k, r)]).drop ((done ++ [(k, r)]).length - L) := by
      simp only [applyOp]
      rw [hlen1]
      exact hstep
    rw [happ]
    exact runOps_eq_drop_aux L rest (done ++ [(k, r)]) h

/-- A simple concrete ok response used by concrete instances. -/
def okResponse (b : String) : Response :=
  { status := 200, statusText := "OK", contentType := "text/html",
    cacheControl := "", body := b }

/-- C5: for every sequence of successful writes of N distinct keys into a
size-bounded partition with limit L, N > L, each write followed by the
eviction step and with reads (cache hits) interleaved arbitrarily, the
partition retains exactly the last L written entries in order: exactly
N−L entries were removed, and they are precisely the N−L
least-recently-inserted ones (pure FIFO in key-enumeration order). -/
theorem c5_fifo_eviction (L : Nat) (ops : List CacheOp)
    (hnodup : ((writePairs ops).map Prod.fst).Nodup)
    (hgt : L < (writePairs ops).length) :
    runOps L ops = (writePairs ops).drop ((writePairs ops).length - L) ∧
      (runOps L ops).length = L ∧
      ∀ e ∈ (writePairs ops).take ((writePairs ops).length - L), e ∉ runOps L ops := by
  have h0 := runOps_eq_drop_aux L ops [] (by simpa using hnodup)
  simp only [List.nil_append, List.drop_nil] at h0
  have hr : runOps L ops = (writePairs ops).drop ((writePairs ops).length - L) := h0
  refine ⟨hr, ?_, ?_⟩
  · rw [hr, List.length_drop]
    omega
  · intro e he hmem
    rw [hr] at hmem
    have hN := hnodup
    rw [← List.take_append_drop ((writePairs ops).length - L) (writePairs ops),
      List.map_append] at hN
    exact (List.nodup_append.mp hN).2.2
      (List.mem_map_of_mem Prod.fst he) (List.mem_map_of_mem Prod.fst hmem)

/-- Witness for C5 at L = 2 and four distinct successful writes with a
read interleaved: the two oldest entries are the ones evicted. -/
theorem c5_fifo_eviction_witness :
    runOps 2 [CacheOp.write "/a" (okResponse "a"), CacheOp.lookup "/a",
        CacheOp.write "/b" (okResponse "b"), CacheOp.write "/c" (okResponse "c"),
        CacheOp.write "/d" (okResponse "d")] =
      [("/c", okResponse "c"), ("/d", okResponse "d")] := by
  have h := c5_fifo_eviction 2
    [CacheOp.write "/a" (okResponse "a"), CacheOp.lookup "/a",
      CacheOp.write "/b" (okResponse "b"), CacheOp.write "/c" (okResponse "c"),
      CacheOp.write "/d" (okResponse "d")] (by decide) (by decide)
  exact h.1.trans (by decide)

theorem Response.ok_iff (r : Response) : r.ok = true ↔ (200 ≤ r.status ∧ r.status ≤ 299) := by
  simp [Response.ok]

theorem cacheMatch_cachePut_self (c : Cache) (k : String) (r : Response) :
    cacheMatch (cachePut c k r) k = some r := by
  unfold cacheMatch cachePut
  rw [List.find?_append]
  have h1 : (cacheDelete c k).find? (fun e => e.1 == k) = none := by
    rw [List.find?_eq_none]
    intro e he
    have hf := List.of_mem_filter he
    simpa using hf
  rw [h1]
  simp

/-- C1 counterexample: when the static bulk write throws, the install
listener's `.catch` block only logs — `self.skipWaiting()` is not
invoked, refuting that skip-waiting runs for every outcome of the two
eager writes. -/
theorem c1_skipWaiting_counterexample :
    (installEvent false true (fun u => okResponse u)).skipWaitingCalled = false := rfl

/-- C1 amended: `self.skipWaiting()` is invoked exactly when both
install-time bulk writes succeed; when either throws, the failure is
caught and logged (so the install promise handed to `waitUntil` still
settles and the worker is not stuck), but the worker does not
force-activate itself. -/
theorem c1_skipWaiting_iff_both_writes_ok (s i : Bool) (fetched : String → Response) :
    (installEvent s i fetched).skipWaitingCalled = (s && i) ∧
      (installEvent s i fetched).loggedError = !(s && i) :=
  ⟨rfl, rfl⟩

/-- C7: classification of a same-origin GET path is first-match-wins in
the fixed order static asset, image, HTML page, generic dynamic content
— every path falls into exactly one of the four classes — and
`handleFetch` dispatches to exactly the handler of that class. -/
theorem c7_classification_first_match (p : String) :
    (classify p = .staticAsset ↔ isStaticAsset p = true) ∧
    (classify p = .image ↔ (isStaticAsset p = false ∧ isImage p = true)) ∧
    (classify p = .htmlPage ↔
      (isStaticAsset p = false ∧ isImage p = false ∧ isHTMLPage p = true)) ∧
    (classify p = .dynamicContent ↔
      (isStaticAsset p = false ∧ isImage p = false ∧ isHTMLPage p = false)) ∧
    ∀ env : SWEnv,
      handleFetch env p =
        match
          (match classify p with
           | .staticAsset => handleStaticAssetE env p
           | .image => handleImageE env p
           | .htmlPage => handleHTMLPageE env p
           | .dynamicContent => handleDynamicE env p).map Prod.fst
        with
        | .ok r => .ok r
        | .error _ => handleOfflineFallback env p := by
  unfold classify handleFetch
  by_cases h1 : isStaticAsset p <;> by_cases h2 : isImage p <;>
    by_cases h3 : isHTMLPage p <;> simp [h1, h2, h3]

/-- C8: a generic dynamic request whose network attempt fails or times
out and whose key is absent from the dynamic partition yields a response
with status exactly 503 and body text "Offline" (and the partition is
unchanged). -/
theorem c8_dynamic_offline_503 (dynamicCache : Cache) (key : String)
    (h : cacheMatch dynamicCache key = none) :
    (handleDynamic dynamicCache key .failure).1.status = 503 ∧
      (handleDynamic dynamicCache key .failure).1.body = "Offline" ∧
      (handleDynamic dynamicCache key .failure).2 = dynamicCache := by
  simp [handleDynamic, h, dynamic503Response]

/-- Witness for C8 at an empty dynamic partition and a generic API key. -/
theorem c8_dynamic_offline_503_witness :
    (handleDynamic [] "/api/data" .failure).1.status = 503 ∧
      (handleDynamic [] "/api/data" .failure).1.body = "Offline" ∧
      (handleDynamic [] "/api/data" .failure).2 = [] :=
  c8_dynamic_offline_503 [] "/api/data" rfl


theorem find?_cacheDelete_ne (c : Cache) {kd k : String} (hne : (kd == k) = false) :
    (cacheDelete c kd).find? (fun e => e.1 == k) = c.find? (fun e => e.1 == k) := by
  induction c with
  | nil => rfl
  | cons e rest ih =>
    by_cases hkeep : (e.1 != kd) = true
    · by_cases hek : (e.1 == k) = true
      · simp [cacheDelete, List.filter_cons, hkeep, List.find?_cons, hek]
      · simp only [Bool.not_eq_true] at hek
        simp only [cacheDelete, List.filter_cons, hkeep, if_true, List.find?_cons, hek,
          cond_false] at ih ⊢
        exact ih
    · simp only [Bool.not_eq_true] at hkeep
      have he : e.1 = kd := by simpa using hkeep
      have hek : (e.1 == k) = false := by rw [he]; exact hne
      simp only [cacheDelete, List.filter_cons, hkeep, if_false, Bool.false_eq_true,
        List.find?_cons, hek, cond_false] at ih ⊢
      exact ih

theorem cacheMatch_cachePut_ne (c : Cache) {kd k : String} (r : Response)
    (hne : (kd == k) = false) :
    cacheMatch (cachePut c kd r) k = cacheMatch c k := by
  unfold cacheMatch cachePut
  rw [List.find?_append, find?_cacheDelete_ne c hne]
  cases hfind : c.find? (fun e => e.1 == k) with
  | some e => simp
  | none => simp [List.find?, hne]

theorem cacheMatch_addAll_of_forall_ne (c : Cache) (urls : List String) (k : String)
    (fetched : String → Response) (h : ∀ u ∈ urls, (u == k) = false) :
    cacheMatch (addAll c urls fetched) k = cacheMatch c k := by
  induction urls generalizing c with
  | nil => rfl
  | cons u us ih =>
    have hstep : addAll c (u :: us) fetched =
        addAll (cachePut c u (fetched u)) us fetched := rfl
    rw [hstep, ih (cachePut c u (fetched u)) (fun v hv => h v (List.mem_cons_of_mem u hv)),
      cacheMatch_cachePut_ne c (fetched u) (h u (List.mem_cons_self u us))]

/-- C9: the offline-page fallback first consults the static partition
for "/" and returns that cached entry when present; only when "/" is
absent does it return the synthesized offline page; and a successful
install writes "/" into the static partition, so after install the
fallback returns the cached home page rather than the synthesized one. -/
theorem c9_offline_page_uses_cached_home (staticCache : Cache)
    (fetched : String → Response) :
    (∀ r, cacheMatch staticCache "/" = some r → getOfflinePage staticCache = r) ∧
    (cacheMatch staticCache "/" = none →
      getOfflinePage staticCache = offlinePageResponse) ∧
    cacheMatch (installEvent true true fetched).staticCache "/" = some (fetched "/") ∧
    getOfflinePage (installEvent true true fetched).staticCache = fetched "/" := by
  have h3 : cacheMatch (installEvent true true fetched).staticCache "/" =
      some (fetched "/") := by
    have hrw : (installEvent true true fetched).staticCache =
        addAll (cachePut [] "/" (fetched "/")) (STATIC_ASSETS.drop 1) fetched := rfl
    rw [hrw, cacheMatch_addAll_of_forall_ne _ _ _ _ (by decide),
      cacheMatch_cachePut_self]
  refine ⟨?_, ?_, h3, ?_⟩
  · intro r h
    simp [getOfflinePage, h]
  · intro h
    simp [getOfflinePage, h]
  · simp [getOfflinePage, h3]

/-- Witness for C9: a static partition holding "/" returns the cached
home page; an empty one returns the synthesized offline page. -/
theorem c9_offline_page_uses_cached_home_witness :
    getOfflinePage [("/", okResponse "home")] = okResponse "home" ∧
      getOfflinePage [] = offlinePageResponse :=
  ⟨(c9_offline_page_uses_cached_home [("/", okResponse "home")] okResponse).1
      (okResponse "home") rfl,
    (c9_offline_page_uses_cached_home [] okResponse).2.1 rfl⟩

/-- A concrete non-ok network response. -/
def notFoundResponse : Response :=
  { status := 404, statusText := "Not Found", contentType := "text/html",
    cacheControl := "", body := "not found" }

/-- C10: an image request that misses the images partition and whose
network fetch resolves (within the timeout) with a non-ok status returns
that network response unchanged: nothing is stored, no eviction step
runs, and no placeholder is substituted. -/
theorem c10_image_non_ok_passthrough (imageCache : Cache) (key : String) (r : Response)
    (hmiss : cacheMatch imageCache key = none) (hnotok : r.ok = false) :
    handleImage imageCache key (.success r) = (r, imageCache) := by
  simp [handleImage, hmiss, hnotok]

/-- Witness for C10 at a 404 response for an uncached image. -/
theorem c10_image_non_ok_passthrough_witness :
    handleImage [] "/assets/images/x.png" (.success notFoundResponse) =
      (notFoundResponse, []) :=
  c10_image_non_ok_passthrough [] "/assets/images/x.png" notFoundResponse rfl rfl

/-- A concrete redirect-range network response. -/
def redirectResponse : Response :=
  { status := 301, statusText := "Moved Permanently", contentType := "text/html",
    cacheControl := "", body := "moved" }

/-- C4 counterexample: a static-asset miss answered by the network with
status 301 — inside the claimed 2xx–3xx "ok" range — is returned but not
stored: the partition stays empty, because `Response.ok` is the fetch
200–299 test, so the claimed store-iff-2xx–3xx biconditional fails. -/
theorem c4_static_store_counterexample :
    200 ≤ redirectResponse.status ∧ redirectResponse.status ≤ 399 ∧
      handleStaticAsset [] "/styles/main.css" (.success redirectResponse) =
        .ok (redirectResponse, []) := by
  refine ⟨by decide, by decide, rfl⟩

/-- C4 amended: on a static-partition miss the network request is issued
with no timeout; the response is returned unchanged and a copy is stored
in the static partition (i.e. subsequently retrievable under the request
key) if and only if its status is in the fetch ok range 200–299; a
network failure propagates to the caller (the top-level offline-fallback
path). -/
theorem c4_static_miss_store_iff_ok (cache : Cache) (key : String) (r : Response)
    (hmiss : cacheMatch cache key = none) :
    (∃ c2, handleStaticAsset cache key (.success r) = .ok (r, c2) ∧
        (cacheMatch c2 key = some r ↔ (200 ≤ r.status ∧ r.status ≤ 299))) ∧
      handleStaticAsset cache key .failure = .error () := by
  refine ⟨⟨if r.ok then cachePut cache key r else cache, ?_, ?_⟩, ?_⟩
  · simp [handleStaticAsset, hmiss]
  · by_cases hok : r.ok = true
    · simp only [hok, if_true]
      simp [cacheMatch_cachePut_self, (Response.ok_iff r).mp hok]
    · have hnot : ¬(200 ≤ r.status ∧ r.status ≤ 299) :=
        fun hc => hok ((Response.ok_iff r).mpr hc)
      simp [hok, hmiss, hnot]
  · simp [handleStaticAsset, hmiss]

/-- Witness for C4 (amended) at an empty static partition, an ok CSS
response and a network failure. -/
theorem c4_static_miss_store_iff_ok_witness :
    (∃ c2, handleStaticAsset [] "/styles/main.css" (.success (okResponse "css")) =
        .ok (okResponse "css", c2) ∧
        (cacheMatch c2 "/styles/main.css" = some (okResponse "css") ↔
          (200 ≤ (okResponse "css").status ∧ (okResponse "css").status ≤ 299))) ∧
      handleStaticAsset [] "/styles/main.css" .failure = .error () :=
  c4_static_miss_store_iff_ok [] "/styles/main.css" (okResponse "css") rfl

/-- A cached home page whose headers differ from the synthesized offline
page. -/
def cachedHomeResponse : Response :=
  { status := 200, statusText := "OK", contentType := "text/html",
    cacheControl := "max-age=3600", body := "<html>home</html>" }

/-- C3 counterexample: an HTML-page request failing on network with an
empty dynamic partition but a cached "/" entry in the static partition
returns that cached root page, not the synthesized offline page — the
returned response carries the cached page's max-age directive rather
than the claimed no-cache directive. -/
theorem c3_offline_page_counterexample :
    handleHTMLPage [] [("/", cachedHomeResponse)] "/about.html" .failure =
        (cachedHomeResponse, []) ∧
      cachedHomeResponse ≠ offlinePageResponse ∧
      cachedHomeResponse.cacheControl ≠ "no-cache" := by
  refine ⟨rfl, by decide, by decide⟩

set_option maxRecDepth 16384 in
/-- C3 amended: on network failure or timeout for an HTML-page request,
the dynamic partition is consulted and a hit is returned; on a miss the
offline-page fallback runs, returning the static partition's cached "/"
entry when present, and only when that too is absent the synthesized
offline page, which has status 200, content-type text/html, a no-cache
directive, and the literal text "You're Offline" in its body. -/
theorem c3_html_failure_fallback_chain (dynamicCache staticCache : Cache) (key : String) :
    (∀ r, cacheMatch dynamicCache key = some r →
      handleHTMLPage dynamicCache staticCache key .failure = (r, dynamicCache)) ∧
    (∀ h, cacheMatch dynamicCache key = none → cacheMatch staticCache "/" = some h →
      handleHTMLPage dynamicCache staticCache key .failure = (h, dynamicCache)) ∧
    (cacheMatch dynamicCache key = none → cacheMatch staticCache "/" = none →
      handleHTMLPage dynamicCache staticCache key .failure =
        (offlinePageResponse, dynamicCache)) ∧
    offlinePageResponse.status = 200 ∧
    offlinePageResponse.contentType = "text/html" ∧
    offlinePageResponse.cacheControl = "no-cache" ∧
    ∃ a b, offlinePageResponse.body = a ++ ("You\x27re Offline" ++ b) := by
  refine ⟨?_, ?_, ?_, rfl, rfl, rfl, ?_⟩
  · intro r h
    simp [handleHTMLPage, h]
  · intro h hd hs
    simp [handleHTMLPage, hd, getOfflinePage, hs]
  · intro hd hs
    simp [handleHTMLPage, hd, getOfflinePage, hs]
  · refine ⟨"<!DOCTYPE html>\n    <html lang=\"en\">\n    <head>\n      <meta charset=\"UTF-8\">\n      <meta name=\"viewport\" content=\"width=device-width, initial-scale=1.0\">\n      <title>Offline - Rebecca Lee Jin Portfolio</title>\n      <style>\n        body \x7b font-family: system-ui, sans-serif; text-align: center; padding: 2rem; \x7d\n        .offline-message \x7b max-width: 400px; margin: 0 auto; \x7d\n        .offline-icon \x7b font-size: 4rem; margin-bottom: 1rem; \x7d\n      </style>\n    </head>\n    <body>\n      <div class=\"offline-message\">\n        <div class=\"offline-icon\">📱</div>\n        <h1>",
      "</h1>\n        <p>This page isn\x27t available offline. Please check your internet connection and try again.</p>\n        <button onclick=\"window.location.reload()\">Try Again</button>\n      </div>\n    </body>\n    </html>", ?_⟩
    decide

/-- Witness for C3 (amended): with everything missing the synthesized
offline page is returned; with a cached root page, that page is. -/
theorem c3_html_failure_fallback_chain_witness :
    handleHTMLPage [] [] "/about.html" .failure = (offlinePageResponse, []) ∧
      handleHTMLPage [] [("/", cachedHomeResponse)] "/contact" .failure =
        (cachedHomeResponse, []) :=
  ⟨(c3_html_failure_fallback_chain [] [] "/about.html").2.2.1 rfl rfl,
    (c3_html_failure_fallback_chain [] [("/", cachedHomeResponse)] "/contact").2.1
      cachedHomeResponse rfl rfl⟩

/-- A dynamic partition already filled to its bound of 30 entries. -/
def thirtyEntryCache : Cache :=
  (List.range 30).map (fun i => ("/page" ++ toString i, okResponse (toString i)))

/-- C2 at its failing input: a dynamic partition holding exactly its
bound of 30 entries receives a successful ok HTML-page response for a
fresh key; `handleHTMLPage` stores it and runs no eviction step, leaving
31 > 30 entries in the partition. -/
theorem c2_dynamic_bound_failing_input :
    thirtyEntryCache.length = 30 ∧
      ((handleHTMLPage thirtyEntryCache [] "/fresh"
          (.success (okResponse "new"))).2).length = 31 := by
  refine ⟨rfl, ?_⟩
  rfl

/-- An environment where opening the images partition rejects. -/
def imageOpenFailEnv : SWEnv :=
  { openFails := fun n => n == IMAGE_CACHE,
    staticCache := [], imageCache := [], dynamicCache := [],
    netResult := .failure }

/-- C6 counterexample: for an image request in an environment where
opening the images partition rejects, the error thrown inside the image
handler is caught and routed to the offline fallback, but the fallback's
own `caches.open` of the same partition rejects again, so the routing
path itself rejects: no response, not even a 503, is produced. -/
theorem c6_uncaught_rejection_counterexample :
    handleFetch imageOpenFailEnv "/assets/images/photo.png" =
      .error "cache open rejected" := rfl

/-- C6 amended: every failure in the primary routing path is caught and
routed through the top-level offline fallback, and whenever the
fallback's own cache opens succeed — the images and static partition
opens do not reject — the routing path always produces a response (worst
case a synthesized 503); an error can escape only when the fallback
itself cannot open the partition it needs. -/
theorem c6_routing_total_when_fallback_opens (env : SWEnv) (pathname : String)
    (himg : env.openFails IMAGE_CACHE = false)
    (hstatic : env.openFails STATIC_CACHE = false) :
    ∃ r, handleFetch env pathname = .ok r := by
  have hfb : ∃ r, handleOfflineFallback env pathname = .ok r := by
    by_cases h1 : isImage pathname = true
    · exact ⟨getPlaceholderImage (cacheContents env IMAGE_CACHE), by
        simp [handleOfflineFallback, h1, getPlaceholderImageE, cachesOpen, himg,
          Except.map]⟩
    · by_cases h2 : isHTMLPage pathname = true
      · exact ⟨getOfflinePage (cacheContents env STATIC_CACHE), by
          simp [handleOfflineFallback, h1, h2, getOfflinePageE, cachesOpen, hstatic,
            Except.map]⟩
      · exact ⟨fallback503Response, by simp [handleOfflineFallback, h1, h2]⟩
  obtain ⟨rf, hrf⟩ := hfb
  unfold handleFetch
  cases hp : (if isStaticAsset pathname then handleStaticAssetE env pathname
      else if isImage pathname then handleImageE env pathname
      else if isHTMLPage pathname then handleHTMLPageE env pathname
      else handleDynamicE env pathname).map Prod.fst with
  | ok r => exact ⟨r, rfl⟩
  | error e => exact ⟨rf, hrf⟩

/-- An environment where no cache open rejects. -/
def noFailEnv : SWEnv :=
  { openFails := fun _ => false,
    staticCache := [], imageCache := [], dynamicCache := [],
    netResult := .failure }

/-- Witness for C6 (amended): with no failing opens, a generic request
whose network fails and whose caches are empty still gets a response. -/
theorem c6_routing_total_when_fallback_opens_witness :
    ∃ r, handleFetch noFailEnv "/api/submit.json" = .ok r :=
  c6_routing_total_when_fallback_opens noFailEnv "/api/submit.json" rfl rfl
